import Mathlib

/-!
Shallow embedding of the adaptive flow-director engine (flow_engine.js) and of
the opponent action selector, over exact rational arithmetic.  JavaScript
numbers are modelled by `ℚ` wherever the engine only adds, multiplies,
divides, clamps and compares; the IEEE special values `NaN`/`±Infinity`,
which the running-stats tracker must reject, are modelled by the dedicated
type `JNum`.  `Math.sqrt` (used only inside `RunningStats.zScore`) is not
representable over `ℚ` and is passed in as an explicit function parameter
`sqrtA`; no theorem below depends on its values.
-/

namespace FlowEngine

/-- `clamp` from the source: `Math.min(Math.max(v, a), b)`. -/
def clamp (v a b : ℚ) : ℚ := min (max v a) b

/-- Exponential moving average (class `EMA` of flow_engine.js). -/
structure EMA where
  alpha : ℚ
  value : ℚ
  inited : Bool
deriving DecidableEq, Repr

/-- `EMA.push`: the first call seeds `value = x`; later calls blend
`value + alpha * (x - value)`. -/
def EMA.push (e : EMA) (x : ℚ) : EMA :=
  if e.inited then { e with value := e.value + e.alpha * (x - e.value) }
  else { e with value := x, inited := true }

/-- `n` repeated `push`es of the same constant `x`. -/
def EMA.pushN (e : EMA) (x : ℚ) : ℕ → EMA
  | 0 => e
  | n + 1 => (e.pushN x n).push x

/-- JavaScript numbers as seen by `RunningStats`: a finite rational, or one
of the non-finite values `NaN`, `Infinity`, `-Infinity`. -/
inductive JNum where
  | fin (q : ℚ)
  | nan
  | inf
  | ninf
deriving DecidableEq, Repr

/-- `Number.isFinite`. -/
def JNum.isFinite : JNum → Bool
  | .fin _ => true
  | _ => false

/-- `Math.min` on JavaScript numbers. -/
def jmin (a b : JNum) : JNum :=
  match a, b with
  | .nan, _ => .nan
  | _, .nan => .nan
  | .ninf, _ => .ninf
  | _, .ninf => .ninf
  | .inf, y => y
  | x, .inf => x
  | .fin p, .fin q => .fin (min p q)

/-- `Math.max` on JavaScript numbers. -/
def jmax (a b : JNum) : JNum :=
  match a, b with
  | .nan, _ => .nan
  | _, .nan => .nan
  | .inf, _ => .inf
  | _, .inf => .inf
  | .ninf, y => y
  | x, .ninf => x
  | .fin p, .fin q => .fin (max p q)

/-- Online Welford tracker (class `RunningStats` of flow_engine.js).
`min`/`max` start at `Infinity`/`-Infinity`, hence are stored as `JNum`. -/
structure RunningStats where
  n : ℕ
  mean : ℚ
  m2 : ℚ
  min : JNum
  max : JNum
deriving DecidableEq, Repr

/-- The `RunningStats` constructor. -/
def RunningStats.init : RunningStats :=
  { n := 0, mean := 0, m2 := 0, min := .inf, max := .ninf }

/-- `RunningStats.push`: non-finite inputs are rejected with no state change;
finite inputs run one Welford update step. -/
def RunningStats.push (st : RunningStats) (x : JNum) : RunningStats :=
  match x with
  | .fin v =>
    let n := st.n + 1
    let mn := jmin st.min (.fin v)
    let mx := jmax st.max (.fin v)
    let delta := v - st.mean
    let mean := st.mean + delta / (n : ℚ)
    let delta2 := v - mean
    { n := n, mean := mean, m2 := st.m2 + delta * delta2, min := mn, max := mx }
  | _ => st

/-- `RunningStats.variance`: `m2/(n-1)` when `n > 1`, else `0`. -/
def RunningStats.variance (st : RunningStats) : ℚ :=
  if 1 < st.n then st.m2 / ((st.n : ℚ) - 1) else 0

/-- `RunningStats.std = Math.sqrt(variance)`, with the square root supplied
as the explicit parameter `sqrtA`. -/
def RunningStats.std (sqrtA : ℚ → ℚ) (st : RunningStats) : ℚ :=
  sqrtA st.variance

/-- `RunningStats.zScore`: `(x - mean)/std`, or `0` when `std ≤ 1e-9`. -/
def RunningStats.zScore (sqrtA : ℚ → ℚ) (st : RunningStats) (x : ℚ) : ℚ :=
  let s := st.std sqrtA
  if s ≤ 1 / 1000000000 then 0 else (x - st.mean) / s

/-- Configuration handed to the `PlayerModel` constructor
(flow_engine.js lines 512-519). -/
structure PMConfig where
  targetWinRate : ℚ
  errorRateTarget : ℚ
  turnTimeTargetMs : ℚ
  actionsPerTurnTarget : ℚ
  skillInitial : ℚ
  skillVarInitial : ℚ
deriving DecidableEq, Repr

/-- The per-player state of class `PlayerModel`. -/
structure PlayerModel where
  cfg : PMConfig
  skill : ℚ
  skillVar : ℚ
  skillEma : EMA
  winRateEma : EMA
  errorRateEma : EMA
  turnTimeStats : RunningStats
  turnTimeEma : EMA
  hesitationEma : EMA
  streak : ℤ
  volatility : EMA
  fatigue : EMA
  engagementEma : EMA
  flowEma : EMA
  lastTurnMs : ℚ
  lastMistakes : ℚ
  lastActions : ℚ
  games : ℕ
  turns : ℕ
deriving DecidableEq, Repr

/-- The `PlayerModel` constructor. -/
def PlayerModel.create (cfg : PMConfig) : PlayerModel :=
  { cfg := cfg
    skill := cfg.skillInitial
    skillVar := cfg.skillVarInitial
    skillEma := { alpha := 0.10, value := cfg.skillInitial, inited := false }
    winRateEma := { alpha := 0.08, value := 0.50, inited := false }
    errorRateEma := { alpha := 0.10, value := 0.20, inited := false }
    turnTimeStats := RunningStats.init
    turnTimeEma := { alpha := 0.08, value := cfg.turnTimeTargetMs, inited := false }
    hesitationEma := { alpha := 0.12, value := 0.0, inited := false }
    streak := 0
    volatility := { alpha := 0.10, value := 0.20, inited := false }
    fatigue := { alpha := 0.06, value := 0.0, inited := false }
    engagementEma := { alpha := 0.08, value := 0.70, inited := false }
    flowEma := { alpha := 0.08, value := 0.70, inited := false }
    lastTurnMs := cfg.turnTimeTargetMs
    lastMistakes := 0
    lastActions := 0
    games := 0
    turns := 0 }

/-- The `observeTurn` argument `{ turnMs, actionsTaken, mistakes }`; fields
may be absent (the source defaults them with `??`). -/
structure TurnSummary where
  turnMs : Option ℚ
  actionsTaken : Option ℚ
  mistakes : Option ℚ
deriving DecidableEq, Repr

/-- `PlayerModel.observeTurn` (flow_engine.js lines 162-194).  The square
root inside `zScore` is the parameter `sqrtA`. -/
def PlayerModel.observeTurn (sqrtA : ℚ → ℚ) (m : PlayerModel)
    (summary : TurnSummary) : PlayerModel :=
  let turnMs := clamp (summary.turnMs.getD m.cfg.turnTimeTargetMs) 200 60000
  let actions := clamp (summary.actionsTaken.getD 0) 0 99
  let mistakes := clamp (summary.mistakes.getD 0) 0 99
  let turns := m.turns + 1
  let turnTimeStats := m.turnTimeStats.push (.fin turnMs)
  let turnTimeEma := m.turnTimeEma.push turnMs
  let tE := turnTimeEma.value
  let perAction := if 0 < actions then turnMs / actions else turnMs
  let hesitationRaw :=
    clamp ((perAction - m.cfg.turnTimeTargetMs / m.cfg.actionsPerTurnTarget) / 2000) (-1) 1
  let hesitationEma := m.hesitationEma.push hesitationRaw
  let errRate := if 0 < actions then mistakes / actions else if 0 < mistakes then 1 else 0
  let errorRateEma := m.errorRateEma.push (clamp errRate 0 1)
  let z := |turnTimeStats.zScore sqrtA turnMs|
  let volatility := m.volatility.push (clamp (z / 3) 0 1)
  let slow := clamp ((tE - m.cfg.turnTimeTargetMs) / m.cfg.turnTimeTargetMs) (-0.5) 1.5
  let fatigueLift := clamp (0.35 * max 0 slow + 0.12 * max 0 (volatility.value - 0.35)) 0 1
  let fatigue := m.fatigue.push fatigueLift
  { m with
    turns := turns
    turnTimeStats := turnTimeStats
    turnTimeEma := turnTimeEma
    hesitationEma := hesitationEma
    errorRateEma := errorRateEma
    volatility := volatility
    fatigue := fatigue
    lastTurnMs := turnMs
    lastMistakes := mistakes
    lastActions := actions }

/-- The `observeGame` argument `{ playerWon, closeGame, comeback }`
(the source reads no other fields of it). -/
structure GameResult where
  playerWon : Bool
  closeGame : Bool
  comeback : Bool
deriving DecidableEq, Repr

/-- `PlayerModel.observeGame` (flow_engine.js lines 196-257). -/
def PlayerModel.observeGame (m : PlayerModel) (result : GameResult) : PlayerModel :=
  let games := m.games + 1
  let won := result.playerWon
  let reward : ℚ := if won then 1 else 0
  let winRateEma := m.winRateEma.push reward
  let wr := winRateEma.value
  let streak : ℤ :=
    if won then (if 0 ≤ m.streak then m.streak + 1 else 1)
    else (if m.streak ≤ 0 then m.streak - 1 else -1)
  let close : ℚ := if result.closeGame then 1 else 0
  let comeback : ℚ := if result.comeback then 1 else 0
  let expected := clamp m.skill 0.05 0.95
  let err := reward - expected
  let lr := clamp (0.08 + m.skillVar * 0.18) 0.06 0.22
  let closeDampen := 1 - 0.35 * close
  let comebackBoost := 1 + 0.20 * comeback
  let skill := clamp (m.skill + lr * err * closeDampen * comebackBoost) 0.02 0.98
  let shrink := 0.96 - 0.05 * min 1 ((games : ℚ) / 20)
  let inflate := 1 + 0.10 * max 0 (m.volatility.value - 0.30)
  let skillVar := clamp (m.skillVar * shrink * inflate) 0.05 0.35
  let skillEma := m.skillEma.push skill
  let tempo := clamp (m.turnTimeEma.value / m.cfg.turnTimeTargetMs) 0.4 1.8
  let tempoScore := 1 - |tempo - 1| * 0.75
  let errScore := 1 - |m.errorRateEma.value - m.cfg.errorRateTarget| * 1.2
  let wrScore := 1 - |wr - m.cfg.targetWinRate| * 1.6
  let fatiguePenalty := 0.55 * m.fatigue.value
  let engagement :=
    clamp (0.45 * tempoScore + 0.35 * errScore + 0.35 * wrScore - fatiguePenalty) 0 1
  let engagementEma := m.engagementEma.push engagement
  let flow :=
    clamp (0.30 * wrScore + 0.25 * tempoScore + 0.25 * (1 - |m.hesitationEma.value|)
      + 0.20 * close - 0.35 * m.fatigue.value) 0 1
  let flowEma := m.flowEma.push flow
  { m with
    games := games
    winRateEma := winRateEma
    streak := streak
    skill := skill
    skillVar := skillVar
    skillEma := skillEma
    engagementEma := engagementEma
    flowEma := flowEma }

/-- The read-only view produced by `PlayerModel.snapshot`. -/
structure Snapshot where
  skill : ℚ
  skillTrend : ℚ
  skillVar : ℚ
  winRateEma : ℚ
  errorRateEma : ℚ
  turnTimeEma : ℚ
  hesitation : ℚ
  volatility : ℚ
  fatigue : ℚ
  engagement : ℚ
  flow : ℚ
  streak : ℤ
  games : ℕ
  turns : ℕ
deriving DecidableEq, Repr

/-- `PlayerModel.snapshot` (flow_engine.js lines 259-276). -/
def PlayerModel.snapshot (m : PlayerModel) : Snapshot :=
  { skill := m.skill
    skillTrend := m.skillEma.value
    skillVar := m.skillVar
    winRateEma := m.winRateEma.value
    errorRateEma := m.errorRateEma.value
    turnTimeEma := m.turnTimeEma.value
    hesitation := m.hesitationEma.value
    volatility := m.volatility.value
    fatigue := m.fatigue.value
    engagement := m.engagementEma.value
    flow := m.flowEma.value
    streak := m.streak
    games := m.games
    turns := m.turns }

/-- `2^32`, the modulus of all 32-bit operations in `mulberry32`. -/
def mask32 : ℕ := 4294967296

/-- `Math.imul`: the low 32 bits of the product (tracked as the unsigned
bit pattern; all later operations in `mulberry32` are bit operations or
additions mod `2^32`, for which the pattern is what matters). -/
def imul (x y : ℕ) : ℕ := (x * y) % mask32

/-- One step of the `mulberry32` generator: from the closure state `a`
(unsigned 32-bit pattern) produce the uniform draw in `[0,1)` and the next
state.  `| 0` / `>>> 0` coercions become `% mask32`; `>>>` is `Nat` shift. -/
def mulberry32Next (a0 : ℕ) : ℚ × ℕ :=
  let a := (a0 + 0x6D2B79F5) % mask32
  let t := imul (a ^^^ (a >>> 15)) (1 ||| a)
  let t := ((t + imul (t ^^^ (t >>> 7)) (61 ||| t)) % mask32) ^^^ t
  let out := t ^^^ (t >>> 14)
  ((out : ℚ) / 4294967296, a)

/-- `seed >>> 0`: the initial `mulberry32` closure state. -/
def mulberry32Seed (seed : ℕ) : ℕ := seed % mask32

/-- The full output stream of `mulberry32(seed)`: draw and state after the
`n`-th call. -/
def rngStream (seed : ℕ) : ℕ → ℚ × ℕ
  | 0 => mulberry32Next (mulberry32Seed seed)
  | n + 1 => mulberry32Next (rngStream seed n).2

/-- One Beta-bandit arm (class `BetaBanditArm`): Beta pseudo-counts. -/
structure BetaBanditArm where
  a : ℚ
  b : ℚ
deriving DecidableEq, Repr

/-- `BetaBanditArm.update`. -/
def BetaBanditArm.update (arm : BetaBanditArm) (success : Bool) (weight : ℚ) :
    BetaBanditArm :=
  if success then { arm with a := arm.a + weight } else { arm with b := arm.b + weight }

/-- `BetaBanditArm.mean`. -/
def BetaBanditArm.mean (arm : BetaBanditArm) : ℚ := arm.a / (arm.a + arm.b)

/-- Abstraction of `gammaSample(k, rng)`: given the shape `k` and the PRNG
state it returns the drawn value and the advanced PRNG state.  The source's
Marsaglia–Tsang sampler uses `Math.log`, `Math.cos`, `Math.sqrt` and an
unbounded acceptance loop, none of which is representable as an executable
function over `ℚ`; what every theorem below uses is only that it is a
deterministic function of `(k, PRNG state)`, which the source function is
(it reads nothing but its arguments and the stream of `rng()` calls). -/
def GammaDraw : Type := ℚ → ℕ → ℚ × ℕ

/-- `BetaBanditArm.sample`: two gamma draws, normalized; `0.5` when the
denominator is not positive. -/
def BetaBanditArm.sample (gsample : GammaDraw) (arm : BetaBanditArm) (rng : ℕ) :
    ℚ × ℕ :=
  let ga := gsample arm.a rng
  let gb := gsample arm.b ga.2
  let den := ga.1 + gb.1
  (if den ≤ 0 then 0.5 else ga.1 / den, gb.2)

/-- The four beat arms, in the `Map` insertion order of the source
(`recovery`, `training`, `challenge`, `novelty`). -/
structure Arms where
  recovery : BetaBanditArm
  training : BetaBanditArm
  challenge : BetaBanditArm
  novelty : BetaBanditArm
deriving DecidableEq, Repr

/-- Fresh arms: every `BetaBanditArm` starts at `(a, b) = (1, 1)`. -/
def Arms.create : Arms :=
  { recovery := ⟨1, 1⟩, training := ⟨1, 1⟩, challenge := ⟨1, 1⟩, novelty := ⟨1, 1⟩ }

/-- The `cooldowns` object: one integer per beat name. -/
structure Cooldowns where
  recovery : ℤ
  training : ℤ
  challenge : ℤ
  novelty : ℤ
deriving DecidableEq, Repr

/-- Read a cooldown by beat name (the four keys of the source object). -/
def Cooldowns.get (c : Cooldowns) : String → ℤ
  | "recovery" => c.recovery
  | "training" => c.training
  | "challenge" => c.challenge
  | "novelty" => c.novelty
  | _ => 0

/-- Write a cooldown by beat name. -/
def Cooldowns.set (c : Cooldowns) (name : String) (v : ℤ) : Cooldowns :=
  match name with
  | "recovery" => { c with recovery := v }
  | "training" => { c with training := v }
  | "challenge" => { c with challenge := v }
  | "novelty" => { c with novelty := v }
  | _ => c

/-- The scheduler configuration (flow_engine.js lines 521-527). -/
structure SchedConfig where
  targetWinRate : ℚ
  turnTimeTargetMs : ℚ
deriving DecidableEq, Repr

/-- Class `BeatScheduler`.  The shared `this.rng` closure state is the
`rng` field (only the scheduler ever draws from it). -/
structure BeatScheduler where
  cfg : SchedConfig
  rng : ℕ
  arms : Arms
  lastBeat : String
  cooldowns : Cooldowns
deriving DecidableEq, Repr

/-- The `BeatScheduler` constructor. -/
def BeatScheduler.create (cfg : SchedConfig) (rng : ℕ) : BeatScheduler :=
  { cfg := cfg, rng := rng, arms := Arms.create, lastBeat := "training"
    cooldowns := ⟨0, 0, 0, 0⟩ }

/-- `BeatScheduler.tickCooldowns`: every cooldown drops by one, floored
at `0`. -/
def BeatScheduler.tickCooldowns (s : BeatScheduler) : BeatScheduler :=
  { s with cooldowns :=
    { recovery := max 0 (s.cooldowns.recovery - 1)
      training := max 0 (s.cooldowns.training - 1)
      challenge := max 0 (s.cooldowns.challenge - 1)
      novelty := max 0 (s.cooldowns.novelty - 1) } }

/-- The per-beat additive bias accumulated by the heuristic rules. -/
structure BiasMap where
  recovery : ℚ
  training : ℚ
  challenge : ℚ
  novelty : ℚ
deriving DecidableEq, Repr

/-- The flat cooldown penalty `cdPenalty` inside `chooseBeat`. -/
def cdPenalty (c : Cooldowns) (name : String) : ℚ :=
  if 0 < c.get name then 0.12 else 0

/-- `BeatScheduler.chooseBeat` (flow_engine.js lines 302-361).  The gamma
sampling kernel is the parameter `gsample`; the four arms are sampled in
`Map` insertion order, threading the PRNG state.  The JS stable descending
`sort` by score is `mergeSort` with the matching total order. -/
def BeatScheduler.chooseBeat (gsample : GammaDraw) (s0 : BeatScheduler)
    (playerSnap : Snapshot) : String × BeatScheduler :=
  let s := s0.tickCooldowns
  let fatigue := playerSnap.fatigue
  let engagement := playerSnap.engagement
  let err := playerSnap.errorRateEma
  let tempo := playerSnap.turnTimeEma / s.cfg.turnTimeTargetMs
  if 0.62 < fatigue then
    ("recovery", { s with cooldowns := s.cooldowns.set "recovery" 1, lastBeat := "recovery" })
  else
    let bias : BiasMap := ⟨0, 0, 0, 0⟩
    let bias := if engagement < 0.52 ∧ err < 0.18 ∧ tempo < 0.95 then
      { bias with novelty := bias.novelty + 0.20 } else bias
    let bias := if engagement < 0.52 ∧ 0.30 < err then
      { bias with training := bias.training + 0.16, recovery := bias.recovery + 0.12 }
      else bias
    let bias := if s.cfg.targetWinRate + 0.08 < playerSnap.winRateEma then
      { bias with challenge := bias.challenge + 0.18 } else bias
    let bias := if playerSnap.winRateEma < s.cfg.targetWinRate - 0.08 then
      { bias with training := bias.training + 0.18 } else bias
    let dR := s.arms.recovery.sample gsample s.rng
    let dT := s.arms.training.sample gsample dR.2
    let dC := s.arms.challenge.sample gsample dT.2
    let dN := s.arms.novelty.sample gsample dC.2
    let samples : List (String × ℚ) :=
      [("recovery", dR.1 + bias.recovery - cdPenalty s.cooldowns "recovery"),
       ("training", dT.1 + bias.training - cdPenalty s.cooldowns "training"),
       ("challenge", dC.1 + bias.challenge - cdPenalty s.cooldowns "challenge"),
       ("novelty", dN.1 + bias.novelty - cdPenalty s.cooldowns "novelty")]
    let sorted := samples.mergeSort (fun x y => decide (y.2 ≤ x.2))
    let best := (sorted.headD ("training", 0)).1
    (best, { s with rng := dN.2, cooldowns := s.cooldowns.set best 1, lastBeat := best })

/-- `BeatScheduler.learn`: feed a Bernoulli reward into the named arm;
unknown names are ignored. -/
def BeatScheduler.learn (s : BeatScheduler) (beat : String) (improvement : Bool) :
    BeatScheduler :=
  match beat with
  | "recovery" => { s with arms := { s.arms with recovery := s.arms.recovery.update improvement 1 } }
  | "training" => { s with arms := { s.arms with training := s.arms.training.update improvement 1 } }
  | "challenge" => { s with arms := { s.arms with challenge := s.arms.challenge.update improvement 1 } }
  | "novelty" => { s with arms := { s.arms with novelty := s.arms.novelty.update improvement 1 } }
  | _ => s

/-- The flow-controller configuration (flow_engine.js lines 529-536). -/
structure FCConfig where
  targetWinRate : ℚ
  botDelayMs : ℚ
  turnTimeTargetMs : ℚ
deriving DecidableEq, Repr

/-- Class `FlowController` (its stored but never-read `rng` reference is
omitted: `compute` and `noteOutcome` do not draw from it). -/
structure FlowController where
  cfg : FCConfig
  bias : ℚ
  difficultyEma : EMA
  pacingEma : EMA
  assistEma : EMA
  lastFlow : ℚ
  lastEng : ℚ
deriving DecidableEq, Repr

/-- The `FlowController` constructor. -/
def FlowController.create (cfg : FCConfig) : FlowController :=
  { cfg := cfg
    bias := 0
    difficultyEma := { alpha := 0.15, value := 0.5, inited := false }
    pacingEma := { alpha := 0.12, value := cfg.botDelayMs, inited := false }
    assistEma := { alpha := 0.15, value := 0.5, inited := false }
    lastFlow := 0.70
    lastEng := 0.70 }

/-- The difficulty value of `FlowController.compute` as it stands right
before the output smoothing (flow_engine.js lines 399-427): base from the
skill trend, win-rate-gap / fatigue / error / hesitation adjustments, the
beat delta and the learned bias, each re-clamped exactly as in the source.
Factored out so the depth mapping can be stated against it. -/
def FlowController.rawDifficulty (fc : FlowController) (playerSnap : Snapshot)
    (beat : String) : ℚ :=
  let targetWR := fc.cfg.targetWinRate
  let wrGap := clamp (playerSnap.winRateEma - targetWR) (-0.5) 0.5
  let fatigue := clamp playerSnap.fatigue 0 1
  let err := clamp playerSnap.errorRateEma 0 1
  let hes := clamp playerSnap.hesitation (-1) 1
  let base := clamp playerSnap.skillTrend 0.10 0.90
  let base := clamp (base + wrGap * 0.55) 0.10 0.95
  let base := clamp (base - 0.35 * fatigue - 0.30 * max 0 (err - 0.25)) 0.10 0.95
  let base := clamp (base - 0.12 * max 0 hes) 0.10 0.95
  let diff := base
  let diff := if beat = "recovery" then clamp (diff - 0.16) 0.10 0.90 else diff
  let diff := if beat = "training" then clamp (diff - 0.08) 0.10 0.93 else diff
  let diff := if beat = "challenge" then clamp (diff + 0.10) 0.10 0.95 else diff
  let diff := if beat = "novelty" then clamp (diff + 0.04) 0.10 0.95 else diff
  clamp (diff + fc.bias) 0.10 0.95

/-- The `Plan` record returned by `FlowController.compute`. -/
structure Plan where
  difficulty : ℚ
  depth : ℕ
  randomness : ℚ
  pacingMs : ℚ
  assist : ℚ
  assistMode : String
  showHighlights : Bool
  showAttackHints : Bool
  beat : String
deriving DecidableEq, Repr

/-- `FlowController.compute` (flow_engine.js lines 398-479), returning the
`Plan` together with the mutated controller (smoothing EMAs and bias). -/
def FlowController.compute (fc : FlowController) (playerSnap : Snapshot)
    (beat : String) : Plan × FlowController :=
  let wrGap := clamp (playerSnap.winRateEma - fc.cfg.targetWinRate) (-0.5) 0.5
  let fatigue := clamp playerSnap.fatigue 0 1
  let err := clamp playerSnap.errorRateEma 0 1
  let diff := fc.rawDifficulty playerSnap beat
  let depth : ℕ := if 0.62 ≤ diff then 2 else 1
  let randomness := clamp (0.60 - diff * 0.52) 0.10 0.60
  let pacing := fc.cfg.botDelayMs + 250 * fatigue - 120 * max 0 wrGap
  let pacing := if beat = "recovery" then pacing + 120 else pacing
  let pacing := if beat = "challenge" then pacing - 70 else pacing
  let pacing := clamp pacing 260 1100
  let assist := (0.45 : ℚ) + 0.35 * fatigue + 0.45 * max 0 (err - 0.20)
  let assist := assist - 0.30 * max 0 (playerSnap.skillTrend - 0.65)
  let assist := clamp assist 0.10 0.95
  let assist := if beat = "training" then clamp (assist + 0.08) 0.10 0.98 else assist
  let assist := if beat = "challenge" then clamp (assist - 0.06) 0.10 0.95 else assist
  let difficultyEma := fc.difficultyEma.push diff
  let diff := difficultyEma.value
  let pacingEma := fc.pacingEma.push pacing
  let pacing := pacingEma.value
  let assistEma := fc.assistEma.push assist
  let assist := assistEma.value
  let assistMode : String :=
    if 0.78 ≤ assist then "High"
    else if 0.55 ≤ assist then "Auto"
    else if 0.32 ≤ assist then "Low"
    else "Off"
  let showHighlights := decide (0.32 ≤ assist)
  let showAttackHints := decide (0.55 ≤ assist)
  let drift := clamp (wrGap * 0.03) (-0.02) 0.02
  let bias := clamp (fc.bias + drift) (-0.18) 0.18
  ({ difficulty := diff, depth := depth, randomness := randomness, pacingMs := pacing,
     assist := assist, assistMode := assistMode, showHighlights := showHighlights,
     showAttackHints := showAttackHints, beat := beat },
   { fc with
     bias := bias
     difficultyEma := difficultyEma
     pacingEma := pacingEma
     assistEma := assistEma })

/-- `FlowController.noteOutcome`. -/
def FlowController.noteOutcome (fc : FlowController) (playerSnap : Snapshot) :
    Bool × FlowController :=
  let f := playerSnap.flow
  let e := playerSnap.engagement
  let improved := decide (fc.lastFlow + fc.lastEng + 0.02 < f + e)
  (improved, { fc with lastFlow := f, lastEng := e })

/-- Class `FlowDirector`: the public facade owning the player model, the
beat scheduler and the flow controller. -/
structure FlowDirector where
  player : PlayerModel
  beats : BeatScheduler
  flow : FlowController
  currentBeat : String
  currentPlan : Plan
  sessionTurns : ℕ
  sessionGames : ℕ
deriving DecidableEq, Repr

/-- The `FlowDirector` constructor with an explicit seed and every other
option left at its default (flow_engine.js lines 494-546).  The trailing
`compute` call seeds the controller's smoothing EMAs, exactly as the
source's constructor does. -/
def FlowDirector.create (seed : ℕ) : FlowDirector :=
  let pmCfg : PMConfig :=
    { targetWinRate := 0.58, errorRateTarget := 0.22, turnTimeTargetMs := 7000
      actionsPerTurnTarget := 2, skillInitial := 0.50, skillVarInitial := 0.22 }
  let player := PlayerModel.create pmCfg
  let beats := BeatScheduler.create ⟨0.58, 7000⟩ (mulberry32Seed seed)
  let flow := FlowController.create ⟨0.58, 650, 7000⟩
  let pf := flow.compute player.snapshot "training"
  { player := player, beats := beats, flow := pf.2, currentBeat := "training"
    currentPlan := pf.1, sessionTurns := 0, sessionGames := 0 }

/-- `FlowDirector.observeTurn` (flow_engine.js lines 548-557): update the
player model, then refresh the plan; the beat is forced to `recovery`
mid-match when the fresh snapshot's fatigue exceeds `0.70`. -/
def FlowDirector.observeTurn (sqrtA : ℚ → ℚ) (d : FlowDirector)
    (turnSummary : TurnSummary) : FlowDirector :=
  let player := d.player.observeTurn sqrtA turnSummary
  let snap := player.snapshot
  let currentBeat := if 0.70 < snap.fatigue then "recovery" else d.currentBeat
  let pf := d.flow.compute snap currentBeat
  { d with
    player := player
    sessionTurns := d.sessionTurns + 1
    currentBeat := currentBeat
    currentPlan := pf.1
    flow := pf.2 }

/-- `FlowDirector.observeGame` (flow_engine.js lines 559-574). -/
def FlowDirector.observeGame (gsample : GammaDraw) (d : FlowDirector)
    (gameResult : GameResult) : FlowDirector :=
  let player := d.player.observeGame gameResult
  let snap := player.snapshot
  let nb := d.beats.chooseBeat gsample snap
  let io := d.flow.noteOutcome snap
  let beats := nb.2.learn d.currentBeat io.1
  let pf := io.2.compute snap nb.1
  { d with
    player := player
    sessionGames := d.sessionGames + 1
    beats := beats
    currentBeat := nb.1
    currentPlan := pf.1
    flow := pf.2 }

/-- `Math.round`: round half toward positive infinity. -/
def jsRound (x : ℚ) : ℤ := Int.floor (x + 1 / 2)

/-- Swap two positions of a list (the destructuring swap of the in-place
shuffle); out-of-range indices leave the list unchanged — the shuffle only
ever produces in-range indices. -/
def listSwap {α : Type} (l : List α) (i j : ℕ) : List α :=
  match l.get? i, l.get? j with
  | some a, some b => (l.set i b).set j a
  | _, _ => l

/-- The Fisher–Yates loop `for (i = len-1; i > 0; i--)` with the stream of
`Math.random()` values supplied as `rand`, indexed by the loop counter (a
reindexing of the arbitrary stream). -/
def fyLoop {α : Type} (rand : ℕ → ℚ) (l : List α) : ℕ → List α
  | 0 => l
  | i + 1 => fyLoop rand (listSwap l (i + 1) (Int.floor (rand (i + 1) * (i + 2))).toNat) i

/-- The in-place shuffle of `pickBotAction` (part_003 lines 658-661). -/
def jsShuffle {α : Type} (rand : ℕ → ℚ) (l : List α) : List α :=
  fyLoop rand l (l.length - 1)

/-- `pickBotAction` (part_003 lines 614-665), generic over the game layer:
`actionsForBot` / `actionsForPlayer` enumerate `actionsForSide` for the two
sides, and `immediateHeuristic`, `simulate`, `evalState` are the
domain-specific scoring helpers (with the beacon-score arguments `pB`, `bB`
folded into `evalState`).  `rand` is the stream of `Math.random()` draws
used by the final shuffle.  Returns `none` exactly on the no-legal-move
terminal. -/
def pickBotAction {α υ : Type} (actionsForBot actionsForPlayer : υ → List α)
    (immediateHeuristic : α → υ → ℚ) (simulate : α → υ → υ)
    (evalState : υ → ℚ) (rand : ℕ → ℚ) (allUnits : υ) (rec : Plan) : Option α :=
  let acts := actionsForBot allUnits
  if acts.isEmpty then none
  else
    let depth := rec.depth
    let randomness := rec.randomness
    let gamma : ℚ := 0.75
    let scored := acts.map (fun a =>
      let imm := immediateHeuristic a allUnits
      let afterBot := simulate a allUnits
      let future :=
        if 2 ≤ depth then
          match (actionsForPlayer afterBot).map (fun ra => evalState (simulate ra afterBot)) with
          | [] => evalState afterBot
          | v :: vs =>
            -- `bestMin` starts at `Infinity` in the source; a `min`-fold
            -- from the first reply value yields the same minimum on this
            -- nonempty list.
            let bestMin := vs.foldl min v
            let botAfter := evalState afterBot
            botAfter - max 0 (botAfter - bestMin)
        else evalState afterBot
      (a, imm + gamma * future))
    let sorted := scored.mergeSort (fun x y => decide (y.2 ≤ x.2))
    match sorted with
    | [] => none  -- unreachable: `scored` is nonempty here
    | top :: _ =>
      let best := top.2
      let margin := clamp (0.8 + randomness * 1.6) 0.7 2.0
      let pool := sorted.filter (fun x => decide (best - margin ≤ x.2))
      let maxPick := max 2 (jsRound (2 + randomness * 6))
      let slice := pool.take (min maxPick.toNat pool.length)
      match jsShuffle rand slice with
      | [] => none  -- unreachable: `slice` is nonempty here
      | x :: _ => some x.1

/-- The default configuration of the `FlowDirector` constructor
(flow_engine.js lines 498-519). -/
def defaultPMConfig : PMConfig :=
  { targetWinRate := 0.58, errorRateTarget := 0.22, turnTimeTargetMs := 7000
    actionsPerTurnTarget := 2, skillInitial := 0.50, skillVarInitial := 0.22 }

theorem clamp_mem (v a b : ℚ) (h : a ≤ b) : a ≤ clamp v a b ∧ clamp v a b ≤ b :=
  ⟨le_min (le_max_right v a) h, min_le_right (max v a) b⟩

theorem observeGame_skill_mem (m : PlayerModel) (r : GameResult) :
    0.02 ≤ (m.observeGame r).skill ∧ (m.observeGame r).skill ≤ 0.98 ∧
    0.05 ≤ (m.observeGame r).skillVar ∧ (m.observeGame r).skillVar ≤ 0.35 := by
  have h1 := clamp_mem
    (m.skill + clamp (0.08 + m.skillVar * 0.18) 0.06 0.22 *
      ((if r.playerWon then (1 : ℚ) else 0) - clamp m.skill 0.05 0.95) *
      (1 - 0.35 * (if r.closeGame then (1 : ℚ) else 0)) *
      (1 + 0.20 * (if r.comeback then (1 : ℚ) else 0)))
    0.02 0.98 (by norm_num)
  have h2 := clamp_mem
    (m.skillVar * (0.96 - 0.05 * min 1 (((m.games + 1 : ℕ) : ℚ) / 20)) *
      (1 + 0.10 * max 0 (m.volatility.value - 0.30)))
    0.05 0.35 (by norm_num)
  exact ⟨h1.1, h1.2, h2.1, h2.2⟩

/-- C2: after every `observeGame` call of every call sequence, from every
starting state and configuration, `skill` stays in `[0.02, 0.98]` and the
skill variance stays in `[0.05, 0.35]`.  Quantifying over an arbitrary
starting model covers every call of every sequence: the state after any
prefix is itself such a model. -/
theorem observeGame_skill_invariant (m : PlayerModel) (rs : List GameResult)
    (h : rs ≠ []) :
    0.02 ≤ (rs.foldl PlayerModel.observeGame m).skill ∧
    (rs.foldl PlayerModel.observeGame m).skill ≤ 0.98 ∧
    0.05 ≤ (rs.foldl PlayerModel.observeGame m).skillVar ∧
    (rs.foldl PlayerModel.observeGame m).skillVar ≤ 0.35 := by
  induction rs generalizing m with
  | nil => exact absurd rfl h
  | cons r rest ih =>
    rw [List.foldl_cons]
    cases rest with
    | nil =>
      rw [List.foldl_nil]
      exact observeGame_skill_mem m r
    | cons r2 rest2 => exact ih (m.observeGame r) (by simp)

/-- Witness for C2 at a concrete model and one-element call sequence. -/
theorem observeGame_skill_invariant_witness :
    0.02 ≤ ([({playerWon := true, closeGame := false, comeback := false} :
        GameResult)].foldl PlayerModel.observeGame
        (PlayerModel.create defaultPMConfig)).skill ∧
    ([({playerWon := true, closeGame := false, comeback := false} :
        GameResult)].foldl PlayerModel.observeGame
        (PlayerModel.create defaultPMConfig)).skill ≤ 0.98 ∧
    0.05 ≤ ([({playerWon := true, closeGame := false, comeback := false} :
        GameResult)].foldl PlayerModel.observeGame
        (PlayerModel.create defaultPMConfig)).skillVar ∧
    ([({playerWon := true, closeGame := false, comeback := false} :
        GameResult)].foldl PlayerModel.observeGame
        (PlayerModel.create defaultPMConfig)).skillVar ≤ 0.35 :=
  observeGame_skill_invariant (PlayerModel.create defaultPMConfig) _
    (by simp)

/-- The model of the C6 scenario: a fresh default `PlayerModel` observing a
single non-close, non-comeback win. -/
def c6model : PlayerModel :=
  (PlayerModel.create defaultPMConfig).observeGame
    { playerWon := true, closeGame := false, comeback := false }

/-- C6: the single first win strictly raises `skill` above `0.50`, moves
`winRateEma` from `0.50` toward `1.0` (the first push seeds it to `1.0`
exactly), and sets `streak = 1`. -/
theorem c6_first_win_scenario :
    0.50 < c6model.skill ∧ 0.50 < c6model.winRateEma.value ∧
    c6model.winRateEma.value ≤ 1 ∧ c6model.streak = 1 := by
  norm_num [c6model, PlayerModel.observeGame, PlayerModel.create, defaultPMConfig,
    EMA.push, clamp]

theorem EMA.push_alpha (e : EMA) (x : ℚ) : (e.push x).alpha = e.alpha := by
  unfold EMA.push; split <;> rfl

theorem EMA.pushN_inv (e : EMA) (x : ℚ) (h : e.inited = true) (n : ℕ) :
    (e.pushN x n).alpha = e.alpha ∧ (e.pushN x n).inited = true := by
  induction n with
  | zero => exact ⟨rfl, h⟩
  | succ n ih =>
    rw [EMA.pushN]
    unfold EMA.push
    rw [if_pos ih.2]
    exact ⟨ih.1, ih.2⟩

theorem EMA.pushN_value_sub (e : EMA) (x : ℚ) (h : e.inited = true) (n : ℕ) :
    (e.pushN x n).value - x = (1 - e.alpha) ^ n * (e.value - x) := by
  induction n with
  | zero => simp [EMA.pushN]
  | succ n ih =>
    have hp := EMA.pushN_inv e x h n
    rw [EMA.pushN]
    unfold EMA.push
    rw [if_pos hp.2]
    have step : (e.pushN x n).value + (e.pushN x n).alpha * (x - (e.pushN x n).value) - x
        = (1 - e.alpha) * ((e.pushN x n).value - x) := by
      rw [hp.1]; ring
    calc (e.pushN x n).value + (e.pushN x n).alpha * (x - (e.pushN x n).value) - x
        = (1 - e.alpha) * ((e.pushN x n).value - x) := step
      _ = (1 - e.alpha) ^ (n + 1) * (e.value - x) := by rw [ih]; ring

/-- C7: the first `push x` seeds `value = x`; every later `push x` blends
`value + alpha * (x - value)`; and for `alpha ∈ (0, 1]`, repeatedly pushing
the same constant `x` brings `value` within any positive tolerance of `x`
after enough iterations, whatever the starting value. -/
theorem ema_push_spec :
    (∀ (e : EMA) (x : ℚ), e.inited = false → (e.push x).value = x) ∧
    (∀ (e : EMA) (x : ℚ), e.inited = true →
      (e.push x).value = e.value + e.alpha * (x - e.value)) ∧
    (∀ (e : EMA) (x : ℚ), e.inited = true → 0 < e.alpha → e.alpha ≤ 1 →
      ∀ ε : ℚ, 0 < ε → ∃ N : ℕ, ∀ n : ℕ, N ≤ n →
        |(e.pushN x n).value - x| ≤ ε) := by
  refine ⟨?_, ?_, ?_⟩
  · intro e x h
    unfold EMA.push
    rw [if_neg (by simp [h])]
  · intro e x h
    unfold EMA.push
    rw [if_pos h]
  · intro e x h h0 h1 ε hε
    have hr0 : (0 : ℚ) ≤ 1 - e.alpha := by linarith
    have hr1 : 1 - e.alpha < 1 := by linarith
    have habs : ∀ n : ℕ, |(e.pushN x n).value - x|
        = (1 - e.alpha) ^ n * |e.value - x| := by
      intro n
      rw [EMA.pushN_value_sub e x h n, abs_mul, abs_pow, abs_of_nonneg hr0]
    by_cases hd : |e.value - x| = 0
    · exact ⟨0, fun n _ => by rw [habs n, hd, mul_zero]; exact le_of_lt hε⟩
    · have hdpos : 0 < |e.value - x| := lt_of_le_of_ne (abs_nonneg _) (Ne.symm hd)
      obtain ⟨N, hN⟩ := exists_pow_lt_of_lt_one (div_pos hε hdpos) hr1
      refine ⟨N, fun n hn => ?_⟩
      rw [habs n]
      have h2 : (1 - e.alpha) ^ n ≤ (1 - e.alpha) ^ N :=
        pow_le_pow_of_le_one hr0 (le_of_lt hr1) hn
      have h3 : (1 - e.alpha) ^ N * |e.value - x| < ε := (lt_div_iff₀ hdpos).mp hN
      calc (1 - e.alpha) ^ n * |e.value - x|
          ≤ (1 - e.alpha) ^ N * |e.value - x| :=
            mul_le_mul_of_nonneg_right h2 (abs_nonneg _)
        _ ≤ ε := le_of_lt h3

/-- Witness for C7 at `alpha = 0.5`, starting value `7`, constant `3`,
tolerance `1/100`. -/
theorem ema_push_spec_witness :
    (EMA.push ⟨0.5, 7, false⟩ 3).value = 3 ∧
    (EMA.push ⟨0.5, 7, true⟩ 3).value = 7 + 0.5 * (3 - 7) ∧
    ∃ N : ℕ, ∀ n : ℕ, N ≤ n →
      |(EMA.pushN ⟨0.5, 7, true⟩ 3 n).value - 3| ≤ 1 / 100 :=
  ⟨ema_push_spec.1 ⟨0.5, 7, false⟩ 3 rfl,
   ema_push_spec.2.1 ⟨0.5, 7, true⟩ 3 rfl,
   ema_push_spec.2.2 ⟨0.5, 7, true⟩ 3 rfl (by norm_num) (by norm_num)
     (1 / 100) (by norm_num)⟩

/-- C8: `RunningStats.push` of a non-finite value (`NaN`, `±Infinity`)
leaves every tracker field unchanged (and, being a total function, throws
nothing), and `variance` is `m2/(n-1)` for `n > 1` and `0` otherwise. -/
theorem runningStats_push_spec :
    (∀ (st : RunningStats) (x : JNum), x.isFinite = false → st.push x = st) ∧
    (∀ st : RunningStats,
      st.variance = if 1 < st.n then st.m2 / ((st.n : ℚ) - 1) else 0) := by
  refine ⟨?_, fun st => rfl⟩
  intro st x h
  cases x with
  | fin q => simp [JNum.isFinite] at h
  | nan => rfl
  | inf => rfl
  | ninf => rfl

/-- Witness for C8 at the fresh tracker and input `NaN`. -/
theorem runningStats_push_spec_witness :
    RunningStats.push RunningStats.init .nan = RunningStats.init ∧
    RunningStats.init.variance
      = if 1 < RunningStats.init.n then
          RunningStats.init.m2 / ((RunningStats.init.n : ℚ) - 1) else 0 :=
  ⟨runningStats_push_spec.1 RunningStats.init .nan rfl,
   runningStats_push_spec.2 RunningStats.init⟩

/-- C1: whenever the snapshot's fatigue exceeds `0.62`, `chooseBeat`
returns `"recovery"` — for every gamma-sampling kernel, every arm state,
every cooldown state and every PRNG state; moreover the PRNG state is left
untouched (the bandit sampling path is bypassed entirely). -/
theorem chooseBeat_fatigue_override (gsample : GammaDraw) (s : BeatScheduler)
    (snap : Snapshot) (h : (0.62 : ℚ) < snap.fatigue) :
    (BeatScheduler.chooseBeat gsample s snap).1 = "recovery" ∧
    (BeatScheduler.chooseBeat gsample s snap).2.rng = s.rng := by
  simp only [BeatScheduler.chooseBeat, BeatScheduler.tickCooldowns]
  rw [if_pos h]
  exact ⟨rfl, rfl⟩

/-- A concrete deterministic gamma-sampling kernel used by witnesses. -/
def gsampleConst : GammaDraw := fun k r => (k, r + 1)

/-- A concrete snapshot whose fatigue `0.75` is above every override
threshold. -/
def snapHighFatigue : Snapshot :=
  { skill := 0.5, skillTrend := 0.5, skillVar := 0.22, winRateEma := 0.5
    errorRateEma := 0.2, turnTimeEma := 7000, hesitation := 0, volatility := 0.2
    fatigue := 0.75, engagement := 0.7, flow := 0.7, streak := 0, games := 0
    turns := 0 }

/-- Witness for C1 at a fresh scheduler and fatigue `0.75`. -/
theorem chooseBeat_fatigue_override_witness :
    (BeatScheduler.chooseBeat gsampleConst
      (BeatScheduler.create ⟨0.58, 7000⟩ 0) snapHighFatigue).1 = "recovery" ∧
    (BeatScheduler.chooseBeat gsampleConst
      (BeatScheduler.create ⟨0.58, 7000⟩ 0) snapHighFatigue).2.rng
      = (BeatScheduler.create ⟨0.58, 7000⟩ 0).rng :=
  chooseBeat_fatigue_override gsampleConst (BeatScheduler.create ⟨0.58, 7000⟩ 0)
    snapHighFatigue (by norm_num [snapHighFatigue])

/-- C9: two independently constructed schedulers with equal seeds, equal
arm states, equal cooldowns and equal last beats make identical choices on
identical snapshots, for every deterministic gamma-sampling kernel; and the
`mulberry32` stream itself is a function of the seed alone. -/
theorem chooseBeat_deterministic (gsample : GammaDraw) (seed1 seed2 : ℕ)
    (arms1 arms2 : Arms) (cds1 cds2 : Cooldowns) (last1 last2 : String)
    (cfg : SchedConfig) (snap : Snapshot) (hseed : seed1 = seed2)
    (harms : arms1 = arms2) (hcds : cds1 = cds2) (hlast : last1 = last2) :
    (∀ n : ℕ, rngStream seed1 n = rngStream seed2 n) ∧
    BeatScheduler.chooseBeat gsample
      ⟨cfg, mulberry32Seed seed1, arms1, last1, cds1⟩ snap
    = BeatScheduler.chooseBeat gsample
      ⟨cfg, mulberry32Seed seed2, arms2, last2, cds2⟩ snap := by
  subst hseed; subst harms; subst hcds; subst hlast
  exact ⟨fun n => rfl, rfl⟩

/-- Witness for C9 at seed `42`, fresh arms and zero cooldowns. -/
theorem chooseBeat_deterministic_witness :
    (∀ n : ℕ, rngStream 42 n = rngStream 42 n) ∧
    BeatScheduler.chooseBeat gsampleConst
      ⟨⟨0.58, 7000⟩, mulberry32Seed 42, Arms.create, "training", ⟨0, 0, 0, 0⟩⟩
      snapHighFatigue
    = BeatScheduler.chooseBeat gsampleConst
      ⟨⟨0.58, 7000⟩, mulberry32Seed 42, Arms.create, "training", ⟨0, 0, 0, 0⟩⟩
      snapHighFatigue :=
  chooseBeat_deterministic gsampleConst 42 42 Arms.create Arms.create
    ⟨0, 0, 0, 0⟩ ⟨0, 0, 0, 0⟩ "training" "training" ⟨0.58, 7000⟩
    snapHighFatigue rfl rfl rfl rfl

/-- A controller whose difficulty-smoothing EMA is already seeded at `0.3`
(as it is after the constructor's initial `compute` call and any number of
turns), with zero bias. -/
def c3fc : FlowController :=
  { cfg := ⟨0.58, 650, 7000⟩, bias := 0
    difficultyEma := ⟨0.15, 0.3, true⟩
    pacingEma := ⟨0.12, 650, true⟩
    assistEma := ⟨0.15, 0.5, true⟩
    lastFlow := 0.70, lastEng := 0.70 }

/-- A snapshot with a high skill trend and a win rate exactly on target. -/
def c3snap : Snapshot :=
  { skill := 0.9, skillTrend := 0.9, skillVar := 0.2, winRateEma := 0.58
    errorRateEma := 0, turnTimeEma := 7000, hesitation := 0, volatility := 0.2
    fatigue := 0, engagement := 0.7, flow := 0.7, streak := 0, games := 0
    turns := 0 }

/-- Counterexample to C3 as stated: at `c3fc`/`c3snap` with beat
`"challenge"`, the pre-smoothing difficulty is `0.95`, so `searchDepth = 2`,
but the returned (EMA-smoothed) difficulty is `0.3975 < 0.62` — the claimed
equivalence between the *returned* difficulty and the depth fails. -/
theorem compute_difficulty_eq (fc : FlowController) (snap : Snapshot)
    (beat : String) :
    (fc.compute snap beat).1.difficulty
      = (fc.difficultyEma.push (fc.rawDifficulty snap beat)).value := rfl

theorem compute_depth_eq (fc : FlowController) (snap : Snapshot) (beat : String) :
    (fc.compute snap beat).1.depth
      = if 0.62 ≤ fc.rawDifficulty snap beat then 2 else 1 := rfl

theorem compute_depth_difficulty_cex :
    ¬((0.62 : ℚ) ≤ (c3fc.compute c3snap "challenge").1.difficulty ↔
      (c3fc.compute c3snap "challenge").1.depth = 2) := by
  have hraw : c3fc.rawDifficulty c3snap "challenge" = 0.95 := by
    simp only [FlowController.rawDifficulty, c3fc, c3snap, String.reduceEq, reduceIte]
    norm_num [clamp]
  rw [compute_difficulty_eq, compute_depth_eq, hraw]
  norm_num [c3fc, EMA.push]

/-- C3 amended: the depth cut is taken on the pre-smoothing difficulty:
`searchDepth = 2` iff the difficulty value entering the output EMA is
`≥ 0.62`, and `searchDepth = 1` otherwise; the `difficulty` field returned
in the `Plan` is that value after smoothing and can fall on the other side
of `0.62`. -/
theorem compute_depth_iff_rawDifficulty (fc : FlowController) (snap : Snapshot)
    (beat : String) :
    ((fc.compute snap beat).1.depth = 2 ↔ 0.62 ≤ fc.rawDifficulty snap beat) ∧
    ((fc.compute snap beat).1.depth = 1 ↔ fc.rawDifficulty snap beat < 0.62) := by
  rw [compute_depth_eq]
  by_cases h : (0.62 : ℚ) ≤ fc.rawDifficulty snap beat
  · simp [h, not_lt.mpr h]
  · simp [h, not_le.mp h]

/-- The gamma-draw table driving the C4 run: the Thompson draws come out as
`recovery ↦ 0.1`, `training ↦ 0.55`, `challenge ↦ 0.6`, `novelty ↦ 0.1` in
both cycles. -/
def c4table : ℕ → ℚ := fun n =>
  match n % 8 with
  | 0 => 1
  | 1 => 9
  | 2 => 11
  | 3 => 9
  | 4 => 3
  | 5 => 2
  | 6 => 1
  | _ => 9

/-- The gamma-sampling kernel reading `c4table` in PRNG-state order. -/
def c4gsample : GammaDraw := fun _ r => (c4table r, r + 1)

/-- A snapshot that triggers no override and no heuristic bias (fatigue
`0.5`, engagement `0.6`, error rate `0.2`, on-target win rate, tempo 1). -/
def c4snap : Snapshot :=
  { skill := 0.5, skillTrend := 0.5, skillVar := 0.22, winRateEma := 0.58
    errorRateEma := 0.20, turnTimeEma := 7000, hesitation := 0, volatility := 0.2
    fatigue := 0.5, engagement := 0.60, flow := 0.7, streak := 0, games := 0
    turns := 0 }

/-- A fresh scheduler with PRNG state `0`. -/
def c4s0 : BeatScheduler := BeatScheduler.create ⟨0.58, 7000⟩ 0

/-- The scheduler state after the first C4 cycle. -/
def c4s1 : BeatScheduler := (BeatScheduler.chooseBeat c4gsample c4s0 c4snap).2

/-- C4 demonstration at the failing input: cycle 1 picks `"challenge"` and
sets its cooldown to `1`; cycle 2 begins by ticking that cooldown down to
`0`, so `cdPenalty` is `0` for every beat and `"challenge"` — whose draw
`0.6` beats `training`'s `0.55` by less than the `0.12` penalty the claim
says is subtracted — is immediately re-selected.  Setting a cooldown to `1`
therefore suppresses nothing. -/
theorem chooseBeat_cooldown_noop :
    (BeatScheduler.chooseBeat c4gsample c4s0 c4snap).1 = "challenge" ∧
    c4s1.cooldowns.challenge = 1 ∧
    c4s1.tickCooldowns.cooldowns.challenge = 0 ∧
    cdPenalty c4s1.tickCooldowns.cooldowns "challenge" = 0 ∧
    (BeatScheduler.chooseBeat c4gsample c4s1 c4snap).1 = "challenge" := by
  norm_num [c4s1, c4s0, c4gsample, c4snap, c4table, BeatScheduler.create,
    BeatScheduler.chooseBeat, BeatScheduler.tickCooldowns, BetaBanditArm.sample,
    Arms.create, Cooldowns.set, Cooldowns.get, cdPenalty, List.mergeSort]

/-- C5: when the enumerated bot action set is empty, `pickBotAction`
returns the distinguished no-move signal `none` — for every game layer,
every game state, every `Plan` and every random stream.  (The embedding is
a total function, so no exceptional exit exists.) -/
theorem pickBotAction_no_moves {α υ : Type}
    (actionsForBot actionsForPlayer : υ → List α)
    (immediateHeuristic : α → υ → ℚ) (simulate : α → υ → υ) (evalState : υ → ℚ)
    (rand : ℕ → ℚ) (allUnits : υ) (rec : Plan)
    (h : actionsForBot allUnits = []) :
    pickBotAction actionsForBot actionsForPlayer immediateHeuristic simulate
      evalState rand allUnits rec = none := by
  unfold pickBotAction
  rw [h]
  rfl

/-- Witness for C5 at a one-point game state with no enumerable actions. -/
theorem pickBotAction_no_moves_witness :
    pickBotAction (fun _ : Unit => ([] : List Unit)) (fun _ => [])
      (fun _ _ => 0) (fun _ u => u) (fun _ => 0) (fun _ => 0) ()
      ⟨0.5, 1, 0.3, 650, 0.5, "Auto", true, true, "training"⟩ = none :=
  pickBotAction_no_moves (fun _ => []) (fun _ => []) (fun _ _ => 0)
    (fun _ u => u) (fun _ => 0) (fun _ => 0) ()
    ⟨0.5, 1, 0.3, 650, 0.5, "Auto", true, true, "training"⟩ rfl

/-- C10: after `FlowDirector.observeTurn` updates the player model, the
current beat is forced to `"recovery"` exactly when the fresh snapshot's
fatigue exceeds `0.70` (and is left unchanged otherwise), the refreshed
plan is computed against that beat, and the beat scheduler is never
consulted (its state is untouched). -/
theorem observeTurn_fatigue_beat_switch (sqrtA : ℚ → ℚ) (d : FlowDirector)
    (ts : TurnSummary) :
    ((0.70 : ℚ) < (d.player.observeTurn sqrtA ts).snapshot.fatigue →
      (d.observeTurn sqrtA ts).currentBeat = "recovery" ∧
      (d.observeTurn sqrtA ts).currentPlan
        = (d.flow.compute (d.player.observeTurn sqrtA ts).snapshot "recovery").1) ∧
    (¬ (0.70 : ℚ) < (d.player.observeTurn sqrtA ts).snapshot.fatigue →
      (d.observeTurn sqrtA ts).currentBeat = d.currentBeat ∧
      (d.observeTurn sqrtA ts).currentPlan
        = (d.flow.compute (d.player.observeTurn sqrtA ts).snapshot d.currentBeat).1) ∧
    (d.observeTurn sqrtA ts).beats = d.beats := by
  refine ⟨fun h => ?_, fun h => ?_, ?_⟩
  · simp only [FlowDirector.observeTurn]
    rw [if_pos h]
    exact ⟨rfl, rfl⟩
  · simp only [FlowDirector.observeTurn]
    rw [if_neg h]
    exact ⟨rfl, rfl⟩
  · rfl

/-- The all-zero stand-in for `Math.sqrt` used by the C10 witness (the
fresh tracker's variance is `0`, so `zScore` is `0` regardless). -/
def sqrtA0 : ℚ → ℚ := fun _ => 0

/-- A director one observation away from the mid-match fatigue switch: a
fresh default director whose player fatigue EMA currently holds `0.75`. -/
def c10dir : FlowDirector :=
  let d := FlowDirector.create 1
  { d with player := { d.player with fatigue := ⟨0.06, 0.75, true⟩ } }

/-- A plain on-target turn summary. -/
def c10summary : TurnSummary := ⟨some 7000, some 2, some 0⟩

/-- Witness for C10: the observed turn pushes snapshot fatigue to `0.705`
and the director switches its beat to `"recovery"`. -/
theorem observeTurn_fatigue_beat_switch_witness :
    (c10dir.observeTurn sqrtA0 c10summary).currentBeat = "recovery" :=
  ((observeTurn_fatigue_beat_switch sqrtA0 c10dir c10summary).1
    (by
      simp only [c10dir, c10summary, FlowDirector.create, PlayerModel.create,
        defaultPMConfig, PlayerModel.observeTurn, PlayerModel.snapshot,
        RunningStats.init, RunningStats.push, RunningStats.variance,
        RunningStats.std, RunningStats.zScore, EMA.push, jmin, jmax, sqrtA0]
      norm_num [clamp])).1

end FlowEngine
